import Mathlib

/-!
Shallow embedding of the Flask query service in app.py.

The service is a stateless mapping from HTTP path parameters to one SQL
statement and back.  The database is modelled as pure table contents:
a list of rows of ns.annotations_terms and a list of rows of
ns.coordinates.  SQL constructs are modelled by executable Lean
functions: SELECT DISTINCT by List.dedup, EXCEPT by deduplicated
filtering, ILIKE by a pattern matcher over lowered characters, and
ORDER BY by an insertion sort on byte-wise string comparison.
Engine acquisition (get_engine) is modelled as a function of the
optional DB_URL environment value; a connection or query failure of
the /test_db endpoint is modelled by an Except value carrying the
exception message.
-/

/-- Row of the ns.annotations_terms table: a study identifier together with a
nullable term string.  SQL NULL is modelled as none. -/
structure TermRow where
  study_id : String
  term : Option String
deriving DecidableEq

/-- A three dimensional point with integer coordinates, modelling a stored
PostGIS geometry value of the geom column (the service only ever builds
query points from parsed integers). -/
structure Point3 where
  x : Int
  y : Int
  z : Int
deriving DecidableEq

/-- Row of the ns.coordinates table: a study identifier with its activation
coordinate. -/
structure CoordRow where
  study_id : String
  geom : Point3
deriving DecidableEq

/-- Snapshot of the three tables read by the /test_db endpoint, together with
the engine version string reported by SELECT version(). -/
structure Tables where
  version : String
  coordinates : List CoordRow
  metadata : List String
  annotationsTerms : List TermRow
deriving DecidableEq

/-- The SQLAlchemy engine produced by create_engine: the (normalized)
connection URL and the dialect name derived from its scheme. -/
structure Engine where
  url : String
  dialect : String
deriving DecidableEq

/-- Message of the RuntimeError raised by get_engine when DB_URL is unset
(app.py line 20). -/
def missingDbUrlMsg : String := "Missing DB_URL (or DATABASE_URL) environment variable."

/-- Characters of a URL before the first occurrence of the separator "://",
or none when the separator does not occur.  Used to extract the scheme the
way the SQLAlchemy URL parser does. -/
def schemeChars : List Char → Option (List Char)
  | [] => none
  | ':' :: '/' :: '/' :: _ => some []
  | c :: cs => (schemeChars cs).map (fun r => c :: r)

/-- Dialect name of a SQLAlchemy URL: the scheme up to an optional
"+driver" suffix.  none models the ArgumentError raised by create_engine
on a string that is not a URL. -/
def dialectOf (u : String) : Option String :=
  (schemeChars u.data).map (fun scheme => String.mk (scheme.takeWhile (fun c => c ≠ '+')))

/-- Embeds get_engine (app.py lines 10 to 27).  Reads DB_URL from the
environment; an unset or empty value raises RuntimeError (Python treats the
empty string as falsy), the legacy postgres:// scheme is rewritten to
postgresql://, and create_engine derives the dialect from the scheme. -/
def getEngine (db_url : Option String) : Except String Engine :=
  match db_url with
  | none => .error missingDbUrlMsg
  | some u =>
    if u.data.isEmpty then .error missingDbUrlMsg
    else
      let u2 := if ("postgres://".data).isPrefixOf u.data
        then "postgresql://" ++ String.mk (u.data.drop 11) else u
      match dialectOf u2 with
      | none => .error ("Could not parse SQLAlchemy URL from string " ++ u2)
      | some d => .ok { url := u2, dialect := d }

/-- Embeds the health endpoint GET / (app.py lines 35 to 37).  The handler
ignores the environment entirely; it is modelled as a function of the
DB_URL value to make that independence expressible. -/
def health (_db_url : Option String) : Nat × String :=
  (200, "<p>Server working!</p>")

/-- Relational EXCEPT of two study id lists as produced by the SQL shape
SELECT DISTINCT ... EXCEPT SELECT DISTINCT ...: the distinct values of the
first operand that do not occur in the second. -/
def sqlExcept (a b : List String) : List String :=
  a.dedup.filter (fun s => decide (s ∉ b))

/-- Embeds SELECT DISTINCT study_id FROM ns.annotations_terms WHERE
term = :t (app.py lines 61 and 63).  A NULL term never equals :t, so rows
with term none are excluded. -/
def termStudyIds (db : List TermRow) (t : String) : List String :=
  ((db.filter (fun r => r.term == some t)).map (fun r => r.study_id)).dedup

/-- Decides whether some row of the table annotates study s with the exact
(non NULL) term t. -/
def hasTermRow (db : List TermRow) (s t : String) : Bool :=
  db.any (fun r => r.study_id == s && r.term == some t)

/-- Embeds the Python expression term.replace(CHR_UNDERSCORE, CHR_SPACE):
for one character arguments, str.replace substitutes every occurrence. -/
def pySpaceForUnderscore : List Char → List Char
  | [] => []
  | c :: cs => (if c = '_' then ' ' else c) :: pySpaceForUnderscore cs

/-- Embeds the derived query string of dissociate_by_terms (app.py lines
52 to 58): replace each underscore by a space, then prepend the fixed
schema prefix. -/
def normalizeTerm (t : String) : String :=
  "terms_abstract_tfidf__" ++ String.mk (pySpaceForUnderscore t.data)

/-- Normalization rule as worded by the specification: replace every
underscore in the token with a single space, then prepend the fixed prefix
string used by the storage schema.  Stated independently of the code-side
normalizeTerm so that the two can be compared. -/
def specNormalizeTerm (t : String) : String :=
  "terms_abstract_tfidf__" ++ String.mk (t.data.map (fun c => if c = '_' then ' ' else c))

/-- Outcome of one request handler: a 200 payload, an abort(status, msg)
client error, or a (status, message) JSON error response. -/
inductive HttpResult (α : Type) where
  | ok (payload : α)
  | badRequest (status : Nat) (description : String)
  | serverError (status : Nat) (error : String)
deriving DecidableEq

/-- JSON object under the term_a_not_b key of the term dissociation
response (app.py lines 71 to 78). -/
structure TermsPayload where
  term_a : String
  term_b : String
  count : Nat
  studies : List String
deriving DecidableEq

/-- Embeds dissociate_by_terms (app.py lines 45 to 80).  The raw path
tokens are normalized, the EXCEPT query runs against the annotations
table, and the response echoes the raw tokens.  A failure to build the
engine is caught by the except clause and reported as a 500 JSON error. -/
def dissociateByTerms (env : Option String) (db : List TermRow)
    (term_a term_b : String) : HttpResult TermsPayload :=
  let full_a := normalizeTerm term_a
  let full_b := normalizeTerm term_b
  match getEngine env with
  | .error e => .serverError 500 ("Database query failed: " ++ e)
  | .ok _ =>
    let studies := sqlExcept (termStudyIds db full_a) (termStudyIds db full_b)
    .ok { term_a := term_a, term_b := term_b, count := studies.length, studies := studies }

/-- Splitting on a single separator character, with the semantics of the
Python expression s.split(sep) for a one character sep: n separators yield
n+1 (possibly empty) parts. -/
def splitOnChar (sep : Char) : List Char → List (List Char)
  | [] => [[]]
  | c :: cs =>
    match splitOnChar sep cs with
    | [] => [[]]
    | p :: rest => if c = sep then [] :: p :: rest else (c :: p) :: rest

/-- Whitespace stripping as performed by the Python int constructor on
string arguments. -/
def pyTrimChars (cs : List Char) : List Char :=
  ((cs.dropWhile Char.isWhitespace).reverse.dropWhile Char.isWhitespace).reverse

/-- Embeds the Python conversion int(s) on the parts produced by
coords.split(CHR_UNDERSCORE): surrounding whitespace is stripped, an
optional sign is followed by one or more decimal digits; anything else
raises ValueError, modelled as none. -/
def pyIntOfChars (cs : List Char) : Option Int :=
  match pyTrimChars cs with
  | [] => none
  | c :: rest =>
    let ds := if c = '+' ∨ c = '-' then rest else c :: rest
    if ds ≠ [] ∧ ds.all Char.isDigit then
      some (if c = '-'
        then -((ds.foldl (fun a d => a * 10 + (d.toNat - '0'.toNat)) 0 : Nat) : Int)
        else ((ds.foldl (fun a d => a * 10 + (d.toNat - '0'.toNat)) 0 : Nat) : Int))
    else none

/-- Embeds the statement x, y, z = map(int, coords.split(CHR_UNDERSCORE))
(app.py lines 90 and 91): it succeeds exactly when the segment splits into
three parts and each parses as a signed integer; any other shape raises
ValueError, modelled as none. -/
def parseCoords (s : String) : Option (Int × Int × Int) :=
  match (splitOnChar '_' s.data).map pyIntOfChars with
  | [some x, some y, some z] => some (x, y, z)
  | _ => none

/-- Condition of claim C3, in the wording of the specification: the segment
does not split on underscore into exactly three parts, or some part is not
a signed integer. -/
def coordMalformed (s : String) : Bool :=
  let parts := splitOnChar '_' s.data
  !((parts.length == 3) && parts.all (fun p => (pyIntOfChars p).isSome))

/-- Reconstructed coordinate string of the response, embedding the Python
f-string joining the three parsed integers with underscores. -/
def coordString (p : Int × Int × Int) : String :=
  toString p.1 ++ "_" ++ toString p.2.1 ++ "_" ++ toString p.2.2

/-- Embeds ST_SetSRID(ST_MakePoint(x, y, z), 4326): the query point built
from the three parsed integers, in the reference system of the stored
geometry. -/
def stMakePoint (x y z : Int) : Point3 :=
  { x := x, y := y, z := z }

/-- Embeds the within distance predicate ST_DWithin(geom, point, radius)
on 3-D Cartesian geometry: squared Euclidean distance at most radius
squared (equivalent to distance at most radius for a nonnegative radius). -/
def stDWithin (g p : Point3) (radius : Int) : Bool :=
  decide ((g.x - p.x) ^ 2 + (g.y - p.y) ^ 2 + (g.z - p.z) ^ 2 ≤ radius ^ 2)

/-- Embeds SELECT DISTINCT study_id FROM ns.coordinates WHERE
ST_DWithin(geom, point, radius) (app.py lines 97 to 101). -/
def locStudyIds (db : List CoordRow) (p : Point3) (radius : Int) : List String :=
  ((db.filter (fun r => stDWithin r.geom p radius)).map (fun r => r.study_id)).dedup

/-- JSON object under the location_a_not_b key of the location dissociation
response (app.py lines 114 to 122). -/
structure LocPayload where
  location_a : String
  location_b : String
  radius_mm : Int
  count : Nat
  studies : List String
deriving DecidableEq

/-- Embeds dissociate_by_locations (app.py lines 83 to 124).  The two
segments are parsed before any database interaction; a parse failure
aborts with 400.  On success the EXCEPT query runs with the fixed radius
10 bound to both ST_DWithin predicates, and the response reports that same
radius value. -/
def dissociateByLocations (env : Option String) (db : List CoordRow)
    (coords_a coords_b : String) : HttpResult LocPayload :=
  match parseCoords coords_a, parseCoords coords_b with
  | some a, some b =>
    match getEngine env with
    | .error e => .serverError 500 ("Database query failed: " ++ e)
    | .ok _ =>
      let radius : Int := 10
      let studies := sqlExcept
        (locStudyIds db (stMakePoint a.1 a.2.1 a.2.2) radius)
        (locStudyIds db (stMakePoint b.1 b.2.1 b.2.2) radius)
      .ok { location_a := coordString a, location_b := coordString b,
            radius_mm := radius, count := studies.length, studies := studies }
  | _, _ => .badRequest 400 "Invalid coordinate format. Expected x_y_z."

/-- Tests a predicate on every suffix of a character list (including the
empty one). -/
def anySuffix (f : List Char → Bool) : List Char → Bool
  | [] => f []
  | c :: s => f (c :: s) || anySuffix f s

/-- Token of a SQL LIKE pattern: the two metacharacters, or a literal
character. -/
inductive LikeTok where
  | percent
  | underscore
  | lit (c : Char)
deriving DecidableEq

/-- Reads a LIKE pattern into tokens with PostgreSQL semantics: percent and
underscore are metacharacters, backslash (the default escape character)
makes the next character literal, and a trailing escape is a pattern
error, modelled as none. -/
def likeLex : List Char → Option (List LikeTok)
  | [] => some []
  | c :: rest =>
    if c = '\\' then
      match rest with
      | [] => none
      | d :: rest2 => (likeLex rest2).map (fun ts => .lit d :: ts)
    else if c = '%' then (likeLex rest).map (fun ts => .percent :: ts)
    else if c = '_' then (likeLex rest).map (fun ts => .underscore :: ts)
    else (likeLex rest).map (fun ts => .lit c :: ts)

/-- Matches a tokenized LIKE pattern against a whole character list,
case-insensitively (ILIKE): percent matches any sequence, underscore any
single character, and a literal matches its lowered self. -/
def likeTokMatches : List LikeTok → List Char → Bool
  | [], s => s.isEmpty
  | .percent :: ps, s => (List.range (s.length + 1)).any (fun n => likeTokMatches ps (s.drop n))
  | .underscore :: ps, s =>
    match s with
    | [] => false
    | _ :: s2 => likeTokMatches ps s2
  | .lit c :: ps, s =>
    match s with
    | [] => false
    | d :: s2 => (c.toLower == d.toLower) && likeTokMatches ps s2

/-- Embeds the SQL predicate s ILIKE pat: lex the pattern, then match it
against the whole string.  An invalid pattern matches nothing. -/
def likeMatches (pat s : List Char) : Bool :=
  match likeLex pat with
  | none => false
  | some ts => likeTokMatches ts s

/-- Case-insensitive comparison of a needle against the front of a
character list. -/
def ciStarts : List Char → List Char → Bool
  | [], _ => true
  | _ :: _, [] => false
  | a :: as, b :: bs => (a.toLower == b.toLower) && ciStarts as bs

/-- Case-insensitive substring containment, as worded by the
specification for term search: the needle occurs contiguously inside the
haystack, ignoring case. -/
def containsCI (needle hay : String) : Bool :=
  anySuffix (ciStarts needle.data) hay.data

/-- Embeds the Python f-string building the ILIKE pattern
(app.py line 138): a percent on each side of the raw keyword. -/
def ilikePattern (keyword : String) : String := "%" ++ keyword ++ "%"

/-- Byte-wise (code point) string comparison, the order used by ORDER BY
under the C collation. -/
def charsLe : List Char → List Char → Bool
  | [], _ => true
  | _ :: _, [] => false
  | a :: as, b :: bs =>
    if a.toNat < b.toNat then true
    else if b.toNat < a.toNat then false
    else charsLe as bs

/-- String comparison lifted from charsLe. -/
def strLe (s t : String) : Bool := charsLe s.data t.data

/-- Inserts a string into a list, before the first element it compares at
or below. -/
def insertSorted (x : String) : List String → List String
  | [] => [x]
  | y :: ys => if strLe x y then x :: y :: ys else y :: insertSorted x ys

/-- Insertion sort by strLe, modelling ORDER BY term ascending. -/
def sortStrings : List String → List String
  | [] => []
  | x :: xs => insertSorted x (sortStrings xs)

/-- JSON payload of the find_terms response (app.py lines 141 to 145). -/
structure FindTermsPayload where
  keyword : String
  match_count : Nat
  matching_terms : List String
deriving DecidableEq

/-- Embeds find_terms (app.py lines 128 to 147): SELECT DISTINCT term FROM
ns.annotations_terms WHERE term ILIKE :pattern ORDER BY term, with pattern
the raw keyword wrapped in percents.  Rows with a NULL term are excluded
(NULL ILIKE anything is not true).  A failure to build the engine is
caught and reported as a 500 JSON error. -/
def findTerms (env : Option String) (db : List TermRow) (keyword : String) :
    HttpResult FindTermsPayload :=
  match getEngine env with
  | .error e => .serverError 500 ("Database query failed: " ++ e)
  | .ok _ =>
    let pattern := ilikePattern keyword
    let rows := (db.filterMap (fun r => r.term)).filter (fun t => likeMatches pattern.data t.data)
    let terms := sortStrings rows.dedup
    .ok { keyword := keyword, match_count := terms.length, matching_terms := terms }

/-- JSON payload accumulated by test_db (app.py lines 155 to 163); absent
dictionary keys are modelled as none. -/
structure TestDbPayload where
  ok : Bool
  dialect : String
  version : Option String
  coordinates_count : Option Nat
  metadata_count : Option Nat
  annotations_terms_count : Option Nat
  error : Option String
deriving DecidableEq

/-- Outcome of the test_db handler: either a JSON response with a status,
or an exception escaping the handler (Flask then renders a bare 500 error
page). -/
inductive TestDbResult where
  | unhandled (error : String)
  | response (status : Nat) (payload : TestDbPayload)
deriving DecidableEq

/-- Embeds test_db (app.py lines 149 to 167).  The call eng = get_engine()
on line 154 sits outside the try block, so a RuntimeError raised there
escapes the handler unhandled.  Once the engine exists, the four reads run
in one transaction: all succeed with a consistent Tables snapshot, or the
first failure raises with a message that the except clause folds into the
payload together with the dialect name. -/
def testDb (env : Option String) (db : Except String Tables) : TestDbResult :=
  match getEngine env with
  | .error e => .unhandled e
  | .ok eng =>
    match db with
    | .error e =>
      .response 500
        { ok := false, dialect := eng.dialect, version := none,
          coordinates_count := none, metadata_count := none,
          annotations_terms_count := none, error := some e }
    | .ok t =>
      .response 200
        { ok := true, dialect := eng.dialect, version := some t.version,
          coordinates_count := some t.coordinates.length,
          metadata_count := some t.metadata.length,
          annotations_terms_count := some t.annotationsTerms.length, error := none }

theorem string_data_append (s t : String) : (s ++ t).data = s.data ++ t.data := by
  cases s
  cases t
  rfl

theorem pySpaceForUnderscore_eq_map (cs : List Char) :
    pySpaceForUnderscore cs = cs.map (fun c => if c = '_' then ' ' else c) := by
  induction cs with
  | nil => rfl
  | cons c cs ih => simp [pySpaceForUnderscore, ih]

theorem normalizeTerm_eq_spec (t : String) : normalizeTerm t = specNormalizeTerm t := by
  simp [normalizeTerm, specNormalizeTerm, pySpaceForUnderscore_eq_map]

theorem mem_sqlExcept (a b : List String) (s : String) :
    s ∈ sqlExcept a b ↔ s ∈ a ∧ s ∉ b := by
  simp [sqlExcept, List.mem_filter, List.mem_dedup]

theorem nodup_sqlExcept (a b : List String) : (sqlExcept a b).Nodup :=
  List.Nodup.filter _ (List.nodup_dedup a)

theorem sqlExcept_self (l : List String) : sqlExcept l l = [] := by
  apply List.filter_eq_nil_iff.mpr
  intro a ha
  simp only [decide_eq_true_eq, not_not]
  exact List.mem_dedup.mp ha

theorem mem_termStudyIds (db : List TermRow) (t s : String) :
    s ∈ termStudyIds db t ↔ hasTermRow db s t = true := by
  simp [termStudyIds, hasTermRow, List.mem_dedup, List.mem_map, List.mem_filter,
    List.any_eq_true]
  tauto

theorem coordMalformed_iff (s : String) :
    coordMalformed s = true ↔ parseCoords s = none := by
  simp only [coordMalformed, parseCoords]
  cases hsp : splitOnChar '_' s.data with
  | nil => simp
  | cons a tl1 =>
    cases tl1 with
    | nil => simp
    | cons b tl2 =>
      cases tl2 with
      | nil => simp
      | cons c tl3 =>
        cases tl3 with
        | nil =>
          cases h1 : pyIntOfChars a <;> cases h2 : pyIntOfChars b <;>
            cases h3 : pyIntOfChars c <;> simp [h1, h2, h3]
        | cons d tl4 =>
          cases h1 : pyIntOfChars a <;> cases h2 : pyIntOfChars b <;>
            cases h3 : pyIntOfChars c <;> simp [h1, h2, h3]

theorem anySuffix_eq_range_any (f : List Char → Bool) (s : List Char) :
    anySuffix f s = (List.range (s.length + 1)).any (fun n => f (s.drop n)) := by
  induction s with
  | nil => simp [anySuffix, List.range_succ]
  | cons c t ih =>
    rw [anySuffix]
    rw [List.range_succ_eq_map]
    simp only [List.any_cons, List.any_map]
    rw [ih]
    have h2 : ((fun n => f (List.drop n (c :: t))) ∘ Nat.succ) = (fun n => f (List.drop n t)) := by
      funext n
      simp
    rw [h2]
    simp

theorem anySuffix_true_of_nil (f : List Char → Bool) (h : f [] = true) (s : List Char) :
    anySuffix f s = true := by
  induction s with
  | nil => simpa [anySuffix] using h
  | cons c t ih => simp [anySuffix, ih]

theorem anySuffix_congr (f g : List Char → Bool) (h : ∀ t, f t = g t) (s : List Char) :
    anySuffix f s = anySuffix g s := by
  induction s with
  | nil => simp [anySuffix, h]
  | cons c t ih => simp [anySuffix, h, ih]

theorem likeTokMatches_percent (ps : List LikeTok) (s : List Char) :
    likeTokMatches (.percent :: ps) s = anySuffix (likeTokMatches ps) s := by
  rw [anySuffix_eq_range_any]
  simp [likeTokMatches]

theorem likeLex_plain (l : List Char) (h : ∀ c ∈ l, c ≠ '%' ∧ c ≠ '_' ∧ c ≠ '\\') :
    likeLex (l ++ ['%']) = some (l.map .lit ++ [.percent]) := by
  induction l with
  | nil => rfl
  | cons c cs ih =>
    obtain ⟨h1, h2, h3⟩ := h c (by simp)
    have ih2 := ih (fun d hd => h d (by simp [hd]))
    rw [List.cons_append, likeLex.eq_def]
    simp [h1, h2, h3, ih2]

theorem likeTokMatches_lit_tokens (kw : List Char) (s : List Char) :
    likeTokMatches (kw.map .lit ++ [.percent]) s = ciStarts kw s := by
  induction kw generalizing s with
  | nil =>
    show likeTokMatches [LikeTok.percent] s = ciStarts [] s
    rw [likeTokMatches_percent]
    rw [anySuffix_true_of_nil (likeTokMatches []) rfl s]
    rfl
  | cons c cs ih =>
    cases s with
    | nil => simp [likeTokMatches, ciStarts]
    | cons d s2 => simp [likeTokMatches, ciStarts, ih]

theorem likeMatches_pattern (kw w : String)
    (h : ∀ c ∈ kw.data, c ≠ '%' ∧ c ≠ '_' ∧ c ≠ '\\') :
    likeMatches (ilikePattern kw).data w.data = containsCI kw w := by
  have hdata : (ilikePattern kw).data = '%' :: (kw.data ++ ['%']) := by
    simp [ilikePattern, string_data_append]
  rw [hdata]
  unfold likeMatches
  have hlex : likeLex ('%' :: (kw.data ++ ['%']))
      = some (.percent :: (kw.data.map .lit ++ [.percent])) := by
    rw [likeLex.eq_def]
    simp [likeLex_plain kw.data h]
  rw [hlex]
  show likeTokMatches (.percent :: (kw.data.map .lit ++ [.percent])) w.data = containsCI kw w
  rw [likeTokMatches_percent]
  unfold containsCI
  exact anySuffix_congr _ _ (fun t => likeTokMatches_lit_tokens kw.data t) w.data

theorem insertSorted_perm (x : String) (l : List String) :
    (insertSorted x l).Perm (x :: l) := by
  induction l with
  | nil => exact List.Perm.refl _
  | cons y ys ih =>
    rw [insertSorted]
    by_cases h : strLe x y = true
    · rw [if_pos h]
    · rw [if_neg h]
      exact (List.Perm.cons y ih).trans (List.Perm.swap x y ys)

theorem sortStrings_perm (l : List String) : (sortStrings l).Perm l := by
  induction l with
  | nil => exact List.Perm.refl _
  | cons x xs ih => exact (insertSorted_perm x (sortStrings xs)).trans (List.Perm.cons x ih)

theorem mem_sortStrings (l : List String) (a : String) : a ∈ sortStrings l ↔ a ∈ l :=
  (sortStrings_perm l).mem_iff

theorem nodup_sortStrings (l : List String) (h : l.Nodup) : (sortStrings l).Nodup :=
  ((sortStrings_perm l).nodup_iff).mpr h

theorem charsLe_total (as bs : List Char) : charsLe as bs = true ∨ charsLe bs as = true := by
  induction as generalizing bs with
  | nil => left; rfl
  | cons a as2 ih =>
    cases bs with
    | nil => right; rfl
    | cons b bs2 =>
      rcases Nat.lt_trichotomy a.toNat b.toNat with h | h | h
      · left; simp [charsLe, h]
      · rcases ih bs2 with h2 | h2
        · left; simp [charsLe, h, h2]
        · right; simp [charsLe, h, h2]
      · right; simp [charsLe, h]

theorem charsLe_trans (as bs cs : List Char) (h1 : charsLe as bs = true)
    (h2 : charsLe bs cs = true) : charsLe as cs = true := by
  induction as generalizing bs cs with
  | nil => rfl
  | cons a as2 ih =>
    cases bs with
    | nil => simp [charsLe] at h1
    | cons b bs2 =>
      cases cs with
      | nil => simp [charsLe] at h2
      | cons c cs2 =>
        rw [charsLe] at h1 h2 ⊢
        rcases Nat.lt_trichotomy a.toNat b.toNat with hab | hab | hab
        · rcases Nat.lt_trichotomy b.toNat c.toNat with hbc | hbc | hbc
          · simp [show a.toNat < c.toNat by omega]
          · simp [show a.toNat < c.toNat by omega]
          · simp [show ¬ b.toNat < c.toNat by omega, show c.toNat < b.toNat by omega] at h2
        · rcases Nat.lt_trichotomy b.toNat c.toNat with hbc | hbc | hbc
          · simp [show a.toNat < c.toNat by omega]
          · simp [show ¬ a.toNat < b.toNat by omega, show ¬ b.toNat < a.toNat by omega] at h1
            simp [show ¬ b.toNat < c.toNat by omega, show ¬ c.toNat < b.toNat by omega] at h2
            simp [show ¬ a.toNat < c.toNat by omega, show ¬ c.toNat < a.toNat by omega]
            exact ih bs2 cs2 h1 h2
          · simp [show ¬ b.toNat < c.toNat by omega, show c.toNat < b.toNat by omega] at h2
        · simp [show ¬ a.toNat < b.toNat by omega, show b.toNat < a.toNat by omega] at h1

theorem strLe_total (x y : String) : strLe x y = true ∨ strLe y x = true :=
  charsLe_total x.data y.data

theorem strLe_trans {x y z : String} (h1 : strLe x y = true) (h2 : strLe y z = true) :
    strLe x z = true :=
  charsLe_trans x.data y.data z.data h1 h2

theorem pairwise_insertSorted (x : String) (l : List String)
    (h : l.Pairwise (fun a b => strLe a b = true)) :
    (insertSorted x l).Pairwise (fun a b => strLe a b = true) := by
  induction l with
  | nil => simp [insertSorted]
  | cons y ys ih =>
    rw [insertSorted]
    by_cases hxy : strLe x y = true
    · rw [if_pos hxy]
      constructor
      · intro z hz
        rcases List.mem_cons.mp hz with rfl | hz2
        · exact hxy
        · exact strLe_trans hxy ((List.pairwise_cons.mp h).1 z hz2)
      · exact h
    · rw [if_neg hxy]
      have hyx : strLe y x = true := (strLe_total x y).resolve_left hxy
      constructor
      · intro z hz
        rcases List.mem_cons.mp ((insertSorted_perm x ys).mem_iff.mp hz) with rfl | hz2
        · exact hyx
        · exact (List.pairwise_cons.mp h).1 z hz2
      · exact ih (List.pairwise_cons.mp h).2

theorem pairwise_sortStrings (l : List String) :
    (sortStrings l).Pairwise (fun a b => strLe a b = true) := by
  induction l with
  | nil => simp [sortStrings]
  | cons x xs ih => exact pairwise_insertSorted x _ ih

/-- C1: for every pair of raw path tokens, the term dissociation queries the
database using exactly the derived strings obtained by replacing every
underscore with a single space and prepending the fixed prefix
terms_abstract_tfidf__, while the response echoes the original tokens in its
term_a and term_b fields. -/
theorem dissociate_terms_normalizes_and_echoes (env : Option String) (eng : Engine)
    (db : List TermRow) (a b : String) (h : getEngine env = .ok eng) :
    dissociateByTerms env db a b = .ok
      { term_a := a, term_b := b,
        count := (sqlExcept (termStudyIds db (specNormalizeTerm a))
          (termStudyIds db (specNormalizeTerm b))).length,
        studies := sqlExcept (termStudyIds db (specNormalizeTerm a))
          (termStudyIds db (specNormalizeTerm b)) } := by
  simp [dissociateByTerms, h, normalizeTerm_eq_spec]

/-- Witness for C1 at a concrete environment, database and token pair. -/
theorem dissociate_terms_normalizes_and_echoes_witness :
    dissociateByTerms (some "postgresql://localhost/ns")
      [{ study_id := "s1", term := some "terms_abstract_tfidf__autobiographical memory" }]
      "autobiographical_memory" "abuse" = .ok
      { term_a := "autobiographical_memory", term_b := "abuse",
        count := 1, studies := ["s1"] } :=
  dissociate_terms_normalizes_and_echoes (some "postgresql://localhost/ns")
    { url := "postgresql://localhost/ns", dialect := "postgresql" }
    [{ study_id := "s1", term := some "terms_abstract_tfidf__autobiographical memory" }]
    "autobiographical_memory" "abuse" rfl

/-- C2: the studies list of the term dissociation equals the EXCEPT set
difference of the distinct study identifiers annotated with normalized A
minus those annotated with normalized B, rows with a NULL term count on
neither side, and the list has no duplicates. -/
theorem dissociate_terms_except_semantics (env : Option String) (eng : Engine)
    (db : List TermRow) (a b s : String) (tp : TermsPayload)
    (he : getEngine env = .ok eng)
    (ht : dissociateByTerms env db a b = .ok tp) :
    tp.studies.Nodup ∧
      (s ∈ tp.studies ↔
        hasTermRow db s (normalizeTerm a) = true ∧ hasTermRow db s (normalizeTerm b) = false) := by
  simp [dissociateByTerms, he] at ht
  subst ht
  constructor
  · exact nodup_sqlExcept _ _
  · rw [show (TermsPayload.studies _) = sqlExcept (termStudyIds db (normalizeTerm a))
      (termStudyIds db (normalizeTerm b)) from rfl]
    rw [mem_sqlExcept]
    simp [mem_termStudyIds]

/-- Witness for C2 on a database with a NULL term row and a study annotated
with both terms. -/
theorem dissociate_terms_except_semantics_witness :
    ([] : List String).Nodup ∧
      ("s1" ∈ ([] : List String) ↔
        hasTermRow
          [{ study_id := "s1", term := some "terms_abstract_tfidf__fear" },
           { study_id := "s2", term := none },
           { study_id := "s1", term := some "terms_abstract_tfidf__pain" }]
          "s1" (normalizeTerm "fear") = true ∧
        hasTermRow
          [{ study_id := "s1", term := some "terms_abstract_tfidf__fear" },
           { study_id := "s2", term := none },
           { study_id := "s1", term := some "terms_abstract_tfidf__pain" }]
          "s1" (normalizeTerm "pain") = false) :=
  dissociate_terms_except_semantics (some "postgresql://localhost/ns")
    { url := "postgresql://localhost/ns", dialect := "postgresql" }
    [{ study_id := "s1", term := some "terms_abstract_tfidf__fear" },
     { study_id := "s2", term := none },
     { study_id := "s1", term := some "terms_abstract_tfidf__pain" }]
    "fear" "pain" "s1"
    { term_a := "fear", term_b := "pain", count := 0, studies := [] } rfl rfl

/-- C3: when either coordinate segment does not split on underscore into
exactly three parts, or some part is not a signed integer, the location
dissociation answers 400 with the fixed description, for every environment
and every database: no engine and no table is consulted. -/
theorem dissociate_locations_malformed_400 (env : Option String) (db : List CoordRow)
    (ca cb : String) (h : coordMalformed ca = true ∨ coordMalformed cb = true) :
    dissociateByLocations env db ca cb =
      .badRequest 400 "Invalid coordinate format. Expected x_y_z." := by
  rcases h with h | h
  · cases hcb : parseCoords cb <;>
      simp [dissociateByLocations, (coordMalformed_iff ca).mp h, hcb]
  · cases hca : parseCoords ca <;>
      simp [dissociateByLocations, (coordMalformed_iff cb).mp h, hca]

/-- Witness for C3 on the malformed segments of the specification, with no
environment at all. -/
theorem dissociate_locations_malformed_400_witness :
    dissociateByLocations none [] "1_2" "a_b_c" =
      .badRequest 400 "Invalid coordinate format. Expected x_y_z." :=
  dissociate_locations_malformed_400 none [] "1_2" "a_b_c" (Or.inl (by decide))

/-- C4: on well formed input the location dissociation binds the fixed
radius 10 to both within distance predicates and reports that same value
verbatim in the radius_mm field, for every database and coordinates. -/
theorem dissociate_locations_radius_fixed (env : Option String) (eng : Engine)
    (db : List CoordRow) (ca cb : String) (a b : Int × Int × Int)
    (ha : parseCoords ca = some a) (hb : parseCoords cb = some b)
    (he : getEngine env = .ok eng) :
    dissociateByLocations env db ca cb = .ok
      { location_a := coordString a, location_b := coordString b, radius_mm := 10,
        count := (sqlExcept (locStudyIds db (stMakePoint a.1 a.2.1 a.2.2) 10)
          (locStudyIds db (stMakePoint b.1 b.2.1 b.2.2) 10)).length,
        studies := sqlExcept (locStudyIds db (stMakePoint a.1 a.2.1 a.2.2) 10)
          (locStudyIds db (stMakePoint b.1 b.2.1 b.2.2) 10) } := by
  simp [dissociateByLocations, ha, hb, he]

/-- Witness for C4 on a two row coordinates table. -/
theorem dissociate_locations_radius_fixed_witness :
    dissociateByLocations (some "postgresql://localhost/ns")
      [{ study_id := "s1", geom := { x := 1, y := 1, z := 1 } },
       { study_id := "s2", geom := { x := 50, y := 0, z := 0 } }]
      "0_0_0" "50_0_0" = .ok
      { location_a := "0_0_0", location_b := "50_0_0", radius_mm := 10,
        count := 1, studies := ["s1"] } :=
  dissociate_locations_radius_fixed (some "postgresql://localhost/ns")
    { url := "postgresql://localhost/ns", dialect := "postgresql" }
    [{ study_id := "s1", geom := { x := 1, y := 1, z := 1 } },
     { study_id := "s2", geom := { x := 50, y := 0, z := 0 } }]
    "0_0_0" "50_0_0" (0, 0, 0) (50, 0, 0) rfl rfl rfl

/-- C8: when both segments parse to the same point, the location
dissociation returns the empty studies list and count 0, for every
database: the two EXCEPT operands coincide before the difference. -/
theorem dissociate_locations_identical_empty (env : Option String) (eng : Engine)
    (db : List CoordRow) (ca cb : String) (p : Int × Int × Int)
    (ha : parseCoords ca = some p) (hb : parseCoords cb = some p)
    (he : getEngine env = .ok eng) :
    dissociateByLocations env db ca cb = .ok
      { location_a := coordString p, location_b := coordString p, radius_mm := 10,
        count := 0, studies := [] } := by
  simp [dissociateByLocations, ha, hb, he, sqlExcept_self]

/-- Witness for C8 at the segment 0_0_0 against itself, over a database
holding a study inside the radius. -/
theorem dissociate_locations_identical_empty_witness :
    dissociateByLocations (some "postgresql://localhost/ns")
      [{ study_id := "s1", geom := { x := 0, y := 0, z := 0 } },
       { study_id := "s2", geom := { x := 3, y := 4, z := 0 } }]
      "0_0_0" "0_0_0" = .ok
      { location_a := "0_0_0", location_b := "0_0_0", radius_mm := 10,
        count := 0, studies := [] } :=
  dissociate_locations_identical_empty (some "postgresql://localhost/ns")
    { url := "postgresql://localhost/ns", dialect := "postgresql" }
    [{ study_id := "s1", geom := { x := 0, y := 0, z := 0 } },
     { study_id := "s2", geom := { x := 3, y := 4, z := 0 } }]
    "0_0_0" "0_0_0" (0, 0, 0) rfl rfl rfl

/-- C9: in every 200 response of the three query endpoints, the reported
count (count or match_count) equals the length of the accompanying list
(studies or matching_terms). -/
theorem counts_match_list_lengths (env : Option String)
    (adb : List TermRow) (cdb : List CoordRow) (a b k ca cb : String)
    (tp : TermsPayload) (lp : LocPayload) (fp : FindTermsPayload)
    (ht : dissociateByTerms env adb a b = .ok tp)
    (hl : dissociateByLocations env cdb ca cb = .ok lp)
    (hf : findTerms env adb k = .ok fp) :
    tp.count = tp.studies.length ∧ lp.count = lp.studies.length ∧
      fp.match_count = fp.matching_terms.length := by
  refine ⟨?_, ?_, ?_⟩
  · cases he : getEngine env with
    | error e => simp [dissociateByTerms, he] at ht
    | ok eng =>
      simp [dissociateByTerms, he] at ht
      subst ht
      rfl
  · cases hpa : parseCoords ca with
    | none => simp [dissociateByLocations, hpa] at hl
    | some pa =>
      cases hpb : parseCoords cb with
      | none => simp [dissociateByLocations, hpa, hpb] at hl
      | some pb =>
        cases he : getEngine env with
        | error e => simp [dissociateByLocations, hpa, hpb, he] at hl
        | ok eng =>
          simp [dissociateByLocations, hpa, hpb, he] at hl
          subst hl
          rfl
  · cases he : getEngine env with
    | error e => simp [findTerms, he] at hf
    | ok eng =>
      simp [findTerms, he] at hf
      subst hf
      rfl

/-- Witness for C9 with one concrete 200 response of each endpoint. -/
theorem counts_match_list_lengths_witness :
    (1 : Nat) = (["s1"] : List String).length ∧
    (1 : Nat) = (["s1"] : List String).length ∧
    (1 : Nat) = (["terms_abstract_tfidf__fear"] : List String).length :=
  counts_match_list_lengths (some "postgresql://localhost/ns")
    [{ study_id := "s1", term := some "terms_abstract_tfidf__fear" }]
    [{ study_id := "s1", geom := { x := 0, y := 0, z := 0 } }]
    "fear" "pain" "fear" "0_0_0" "9_9_9"
    { term_a := "fear", term_b := "pain", count := 1, studies := ["s1"] }
    { location_a := "0_0_0", location_b := "9_9_9", radius_mm := 10,
      count := 1, studies := ["s1"] }
    { keyword := "fear", match_count := 1,
      matching_terms := ["terms_abstract_tfidf__fear"] }
    rfl rfl rfl

/-- Counterexample to C5: with DB_URL absent the engine cannot be built,
yet the application serves traffic: the health endpoint answers 200 with
its body, contradicting the claim that no endpoint responds successfully. -/
theorem health_serves_despite_missing_db_url :
    getEngine none = .error missingDbUrlMsg ∧
      health none = (200, "<p>Server working!</p>") :=
  ⟨rfl, rfl⟩

/-- C5 (amended): a missing (or empty) DB_URL is not fatal at startup; the
engine error is raised lazily on first database use, so the health endpoint
still answers 200, the three query endpoints answer 500 JSON errors, and
test_db lets the RuntimeError escape unhandled. -/
theorem missing_db_url_lazy_failure (env : Option String) (adb : List TermRow)
    (cdb : List CoordRow) (tdb : Except String Tables) (a b k : String)
    (h : env = none ∨ env = some "") :
    health env = (200, "<p>Server working!</p>") ∧
    getEngine env = .error missingDbUrlMsg ∧
    dissociateByTerms env adb a b =
      .serverError 500 ("Database query failed: " ++ missingDbUrlMsg) ∧
    findTerms env adb k =
      .serverError 500 ("Database query failed: " ++ missingDbUrlMsg) ∧
    dissociateByLocations env cdb "0_0_0" "0_0_0" =
      .serverError 500 ("Database query failed: " ++ missingDbUrlMsg) ∧
    testDb env tdb = .unhandled missingDbUrlMsg := by
  rcases h with rfl | rfl <;> exact ⟨rfl, rfl, rfl, rfl, rfl, rfl⟩

/-- Witness for the amended C5 with the variable unset. -/
theorem missing_db_url_lazy_failure_witness :
    health none = (200, "<p>Server working!</p>") ∧
    getEngine none = .error missingDbUrlMsg ∧
    dissociateByTerms none [] "a" "b" =
      .serverError 500 ("Database query failed: " ++ missingDbUrlMsg) ∧
    findTerms none [] "k" =
      .serverError 500 ("Database query failed: " ++ missingDbUrlMsg) ∧
    dissociateByLocations none [] "0_0_0" "0_0_0" =
      .serverError 500 ("Database query failed: " ++ missingDbUrlMsg) ∧
    testDb none (.error "connection refused") = .unhandled missingDbUrlMsg :=
  missing_db_url_lazy_failure none [] [] (.error "connection refused") "a" "b" "k"
    (Or.inl rfl)

/-- Counterexample to C6: on the failure caused by a missing DB_URL, the
first call of test_db does not answer a structured 500 JSON payload; the
call eng = get_engine() sits outside the try block and the RuntimeError
escapes the handler unhandled. -/
theorem test_db_unhandled_on_missing_db_url :
    testDb none (.error "connection refused") = .unhandled missingDbUrlMsg := rfl

/-- C6 (amended): once the engine is obtained, test_db answers 200 with
ok, dialect, version and the three table counts taken from one snapshot,
and answers 500 with ok false, the dialect name and the error message on
any query failure; only a failure of engine acquisition itself escapes
unhandled. -/
theorem test_db_structured_when_engine_ok (env : Option String) (eng : Engine)
    (t : Tables) (e : String) (he : getEngine env = .ok eng) :
    testDb env (.ok t) = .response 200
      { ok := true, dialect := eng.dialect, version := some t.version,
        coordinates_count := some t.coordinates.length,
        metadata_count := some t.metadata.length,
        annotations_terms_count := some t.annotationsTerms.length, error := none } ∧
    testDb env (.error e) = .response 500
      { ok := false, dialect := eng.dialect, version := none,
        coordinates_count := none, metadata_count := none,
        annotations_terms_count := none, error := some e } := by
  constructor <;> simp [testDb, he]

/-- Witness for the amended C6 on a concrete snapshot and a concrete
failure message. -/
theorem test_db_structured_when_engine_ok_witness :
    testDb (some "postgresql://localhost/ns")
      (.ok { version := "PostgreSQL 16.3", 
             coordinates := [{ study_id := "s1", geom := { x := 0, y := 0, z := 0 } }],
             metadata := ["m1", "m2"],
             annotationsTerms := [{ study_id := "s1", term := some "terms_abstract_tfidf__fear" }] })
      = .response 200
      { ok := true, dialect := "postgresql", version := some "PostgreSQL 16.3",
        coordinates_count := some 1, metadata_count := some 2,
        annotations_terms_count := some 1, error := none } ∧
    testDb (some "postgresql://localhost/ns") (.error "server closed the connection")
      = .response 500
      { ok := false, dialect := "postgresql", version := none,
        coordinates_count := none, metadata_count := none,
        annotations_terms_count := none, error := some "server closed the connection" } :=
  test_db_structured_when_engine_ok (some "postgresql://localhost/ns")
    { url := "postgresql://localhost/ns", dialect := "postgresql" }
    { version := "PostgreSQL 16.3",
      coordinates := [{ study_id := "s1", geom := { x := 0, y := 0, z := 0 } }],
      metadata := ["m1", "m2"],
      annotationsTerms := [{ study_id := "s1", term := some "terms_abstract_tfidf__fear" }] }
    "server closed the connection" rfl

/-- Counterexample to C7: the keyword a_b makes find_terms return a stored
term that does not contain the keyword as a case-insensitive substring,
because the underscore is passed unescaped into the ILIKE pattern and acts
as a single character wildcard. -/
theorem find_terms_wildcard_counterexample :
    findTerms (some "postgresql://localhost/ns")
      [{ study_id := "s1", term := some "terms_abstract_tfidf__axb" }] "a_b" = .ok
      { keyword := "a_b", match_count := 1,
        matching_terms := ["terms_abstract_tfidf__axb"] } ∧
    containsCI "a_b" "terms_abstract_tfidf__axb" = false :=
  ⟨rfl, rfl⟩

/-- C7 (amended): for every keyword free of the LIKE metacharacters
(percent, underscore and the escape backslash), find_terms returns exactly
the distinct stored term strings containing the keyword case-insensitively,
sorted ascending with no duplicates, and match_count equals the length of
the list. -/
theorem find_terms_substring_semantics (env : Option String) (eng : Engine)
    (db : List TermRow) (kw w : String) (fp : FindTermsPayload)
    (hkw : ∀ c ∈ kw.data, c ≠ '%' ∧ c ≠ '_' ∧ c ≠ '\\')
    (he : getEngine env = .ok eng)
    (hf : findTerms env db kw = .ok fp) :
    fp.matching_terms.Pairwise (fun s t => strLe s t = true) ∧
    fp.matching_terms.Nodup ∧
    fp.match_count = fp.matching_terms.length ∧
    (w ∈ fp.matching_terms ↔
      (some w ∈ db.map (fun r => r.term) ∧ containsCI kw w = true)) := by
  simp [findTerms, he] at hf
  subst hf
  refine ⟨pairwise_sortStrings _, nodup_sortStrings _ (List.nodup_dedup _), rfl, ?_⟩
  rw [show (FindTermsPayload.matching_terms _)
      = sortStrings ((db.filterMap (fun r => r.term)).filter
        (fun t => likeMatches (ilikePattern kw).data t.data)).dedup from rfl]
  rw [mem_sortStrings, List.mem_dedup, List.mem_filter]
  rw [likeMatches_pattern kw w hkw]
  simp [List.mem_filterMap, List.mem_map]

/-- Witness for the amended C7 on a two term table and the keyword memory. -/
theorem find_terms_substring_semantics_witness :
    (["terms_abstract_tfidf__memory"] : List String).Pairwise
      (fun s t => strLe s t = true) ∧
    (["terms_abstract_tfidf__memory"] : List String).Nodup ∧
    (1 : Nat) = (["terms_abstract_tfidf__memory"] : List String).length ∧
    ("terms_abstract_tfidf__memory" ∈ (["terms_abstract_tfidf__memory"] : List String) ↔
      (some "terms_abstract_tfidf__memory" ∈
          [some "terms_abstract_tfidf__memory", some "terms_abstract_tfidf__abuse"] ∧
        containsCI "memory" "terms_abstract_tfidf__memory" = true)) :=
  find_terms_substring_semantics (some "postgresql://localhost/ns")
    { url := "postgresql://localhost/ns", dialect := "postgresql" }
    [{ study_id := "s1", term := some "terms_abstract_tfidf__memory" },
     { study_id := "s2", term := some "terms_abstract_tfidf__abuse" }]
    "memory" "terms_abstract_tfidf__memory"
    { keyword := "memory", match_count := 1,
      matching_terms := ["terms_abstract_tfidf__memory"] }
    (by decide) rfl rfl

/-- C10: the raw keyword is embedded unescaped into the pattern, so ILIKE
metacharacters act as wildcards: a percent in the keyword matches any
sequence and an underscore any single character, while literal substring
semantics hold exactly for keywords free of LIKE metacharacters. -/
theorem ilike_metacharacter_semantics (kw w : String)
    (hkw : ∀ c ∈ kw.data, c ≠ '%' ∧ c ≠ '_' ∧ c ≠ '\\') :
    likeMatches (ilikePattern kw).data w.data = containsCI kw w ∧
    findTerms (some "postgresql://localhost/ns")
      [{ study_id := "s1", term := some "axxb" }] "a%b" = .ok
      { keyword := "a%b", match_count := 1, matching_terms := ["axxb"] } ∧
    containsCI "a%b" "axxb" = false ∧
    findTerms (some "postgresql://localhost/ns")
      [{ study_id := "s2", term := some "aXc" }] "a_c" = .ok
      { keyword := "a_c", match_count := 1, matching_terms := ["aXc"] } ∧
    containsCI "a_c" "aXc" = false :=
  ⟨likeMatches_pattern kw w hkw, rfl, rfl, rfl, rfl⟩

/-- Witness for C10 at a metacharacter free keyword. -/
theorem ilike_metacharacter_semantics_witness :
    likeMatches (ilikePattern "ab").data "xaby".data = containsCI "ab" "xaby" ∧
    findTerms (some "postgresql://localhost/ns")
      [{ study_id := "s1", term := some "axxb" }] "a%b" = .ok
      { keyword := "a%b", match_count := 1, matching_terms := ["axxb"] } ∧
    containsCI "a%b" "axxb" = false ∧
    findTerms (some "postgresql://localhost/ns")
      [{ study_id := "s2", term := some "aXc" }] "a_c" = .ok
      { keyword := "a_c", match_count := 1, matching_terms := ["aXc"] } ∧
    containsCI "a_c" "aXc" = false :=
  ilike_metacharacter_semantics "ab" "xaby" (by decide)
